import Mathlib

/-!
Verification development for the DWLR groundwater dashboard (`app.py`).

The alerting and threshold-evaluation core of the script is embedded
shallowly:

* a pandas row becomes a `Reading` record, the loaded CSV a `List Reading`;
* `df[df["station_id"] == selected_station]` becomes `filtered_df`;
* `filtered_df.sort_values("datetime").iloc[-1]["water_level"]` becomes
  `latest_level`, which sorts by the `datetime` column and takes the last
  row; taking the last row of an empty frame fails, which we surface as
  `Except.error` (the spec's `EmptySeriesError`);
* the alert branch (lines 77-93 of `app.py`) becomes `alert_branch`,
  which returns the list of observable events (dashboard banners, channel
  invocations, log lines) produced by one evaluation;
* the outcomes of the two external transports (the SMTP session and the
  HTTP POST to the SMS gateway) are inputs of type `Except DeliveryError _`
  packaged in a `World`; the `try`/`except` blocks of
  `send_email_alert` / `send_sms_alert` become `try_catch`.

Water levels are modelled as `ℚ`: the script compares float64 readings
against the exactly representable constants 2.0 and 10.0, and rational
order is faithful to float order on the values involved.
-/

namespace DWLR

/-- One row of the CSV: station_id, datetime, water_level, lat, lon.
The datetime column is modelled by its total order, as an integer. -/
structure Reading where
  station_id : String
  datetime : Int
  water_level : ℚ
  lat : ℚ
  lon : ℚ
deriving DecidableEq, Repr

/-- The three alert classifications of the dashboard. -/
inductive AlertState
  | LOW
  | HIGH
  | NORMAL
deriving DecidableEq, Repr

/-- LOW_THRESHOLD = 2.0 meters (app.py line 77). -/
def LOW_THRESHOLD : ℚ := 2

/-- HIGH_THRESHOLD = 10.0 meters (app.py line 78). -/
def HIGH_THRESHOLD : ℚ := 10

/-- Comparison of rows by the datetime column. -/
def datetime_le (a b : Reading) : Prop := a.datetime ≤ b.datetime

instance : DecidableRel datetime_le := fun a b => Int.decLe a.datetime b.datetime

instance : IsTotal Reading datetime_le := ⟨fun a b => Int.le_total a.datetime b.datetime⟩

instance : IsTrans Reading datetime_le := ⟨fun _ _ _ h h' => le_trans h h'⟩

/-- The row filter `df[df["station_id"] == selected_station]` (app.py line 27). -/
def filtered_df (df : List Reading) (selected_station : String) : List Reading :=
  df.filter (fun r => r.station_id == selected_station)

/-- The sort `filtered_df.sort_values("datetime")` (app.py line 75):
ascending sort of the rows by the datetime column. -/
def sort_values_datetime (rows : List Reading) : List Reading :=
  rows.insertionSort datetime_le

/-- The failure of taking the last row of an empty frame: the spec's
`EmptySeriesError` (the script's `iloc[-1]` raises on an empty
filtered set; nothing catches it, so it reaches the caller). -/
inductive EmptySeriesError
  | emptySeries
deriving DecidableEq, Repr

/-- `filtered_df.sort_values("datetime").iloc[-1]["water_level"]`
(app.py line 75): the water level of the last row after sorting by
datetime, an error when the station has no rows. -/
def latest_level (df : List Reading) (selected_station : String) :
    Except EmptySeriesError ℚ :=
  match (sort_values_datetime (filtered_df df selected_station)).getLast? with
  | none => Except.error EmptySeriesError.emptySeries
  | some r => Except.ok r.water_level

/-- The decision structure of the alert branch (app.py lines 80-93),
reified as the spec's `evaluate`: LOW below 2.0, HIGH above 10.0,
NORMAL otherwise, with strict comparisons only. -/
def classify (level : ℚ) : AlertState :=
  if level < LOW_THRESHOLD then AlertState.LOW
  else if level > HIGH_THRESHOLD then AlertState.HIGH
  else AlertState.NORMAL

/-- The Python format `f"{level:.2f}"` for the levels at hand: the decimal
numeral with exactly two digits after the point, the value rounded at the
second decimal. Computed on the numerator and denominator so that the
kernel can evaluate it. -/
def format_two_dec (v : ℚ) : String :=
  let sign : String := if v < 0 then "-" else ""
  let n : Int := Int.ofNat v.num.natAbs
  let d : Int := Int.ofNat v.den
  let c : Int := (200 * n + d) / (2 * d)
  let whole : Int := c / 100
  let frac : Int := c % 100
  sign ++ toString whole ++ "." ++ (if frac < 10 then "0" else "") ++ toString frac

/-- The alert message of the LOW branch (app.py line 81). -/
def low_alert_message (level : ℚ) : String :=
  "⚠️ ALERT: Water level critically LOW (" ++ format_two_dec level ++ " m)"

/-- The alert message of the HIGH branch (app.py line 87). -/
def high_alert_message (level : ℚ) : String :=
  "⚠️ ALERT: Water level unusually HIGH (" ++ format_two_dec level ++ " m)"

/-- The message of the NORMAL branch (app.py line 93). -/
def normal_message (level : ℚ) : String :=
  "✅ Water level is Normal (" ++ format_two_dec level ++ " m)"

/-- A failure of an external transport (SMTP or HTTP), carrying its text. -/
inductive DeliveryError
  | failure (info : String)
deriving DecidableEq, Repr

/-- The text of a transport failure. -/
def delivery_info : DeliveryError → String
  | DeliveryError.failure info => info

/-- The observable events of one run of the alerts block: the dashboard
banners (`st.error` / `st.warning` / `st.success`), the invocation of a
notification channel with its message, and the console log lines. -/
inductive Event
  | stError (msg : String)
  | stWarning (msg : String)
  | stSuccess (msg : String)
  | emailAttempt (msg : String)
  | emailLog (line : String)
  | smsAttempt (msg : String) (phone : String)
  | smsLog (line : String)
deriving DecidableEq, Repr

/-- The outcomes the external world hands to one run: the result of the
SMTP session in `send_email_alert` and the result of the HTTP POST in
`send_sms_alert` (its status code on success). -/
structure World where
  smtp_outcome : Except DeliveryError Unit
  sms_outcome : Except DeliveryError Nat

/-- A Python `try`/`except` block whose body either produces a value or
raises: the handler receives the raised error, and the block as a whole
always returns. -/
def try_catch {α : Type} (body : Except DeliveryError α) (handler : DeliveryError → α) : α :=
  match body with
  | Except.ok a => a
  | Except.error e => handler e

/-- The log line printed by `send_email_alert` (app.py lines 40-47): a
success line when the SMTP session completes, the except-branch line when
it raises. -/
def email_result_log (smtp_outcome : Except DeliveryError Unit) : String :=
  try_catch (Except.map (fun _ => "✅ Email sent successfully") smtp_outcome)
    (fun e => "❌ Email failed: " ++ delivery_info e)

/-- `send_email_alert(message)` (app.py lines 30-47): the channel is
entered with the message, the SMTP delivery is attempted inside
`try`/`except`, and exactly one log line comes out; no error escapes. -/
def send_email_alert (message : String) (smtp_outcome : Except DeliveryError Unit) :
    List Event :=
  [Event.emailAttempt message, Event.emailLog (email_result_log smtp_outcome)]

/-- The log line printed by `send_sms_alert` (app.py lines 63-70): the
status code is inspected when the POST returns (200 is success), the
except-branch line is printed when it raises. -/
def sms_result_log (sms_outcome : Except DeliveryError Nat) : String :=
  try_catch
    (Except.map
      (fun status =>
        if status == 200 then "✅ SMS sent successfully" else "❌ SMS failed")
      sms_outcome)
    (fun e => "⚠️ Error sending SMS: " ++ delivery_info e)

/-- `send_sms_alert(message, phone_number)` (app.py lines 50-70): the
channel is entered with the message and number, the POST is attempted
inside `try`/`except`, and exactly one log line comes out; no error
escapes. -/
def send_sms_alert (message : String) (phone_number : String)
    (sms_outcome : Except DeliveryError Nat) : List Event :=
  [Event.smsAttempt message phone_number, Event.smsLog (sms_result_log sms_outcome)]

/-- The alert branch (app.py lines 80-93) applied to the latest level:
below LOW_THRESHOLD an error banner, an email and an SMS with the LOW
message; above HIGH_THRESHOLD a warning banner, an email and an SMS with
the HIGH message; otherwise only a success banner. -/
def alert_branch (level : ℚ) (w : World) : List Event :=
  if level < LOW_THRESHOLD then
    Event.stError (low_alert_message level) ::
      (send_email_alert (low_alert_message level) w.smtp_outcome ++
        send_sms_alert (low_alert_message level) "+91XXXXXXXXXX" w.sms_outcome)
  else if level > HIGH_THRESHOLD then
    Event.stWarning (high_alert_message level) ::
      (send_email_alert (high_alert_message level) w.smtp_outcome ++
        send_sms_alert (high_alert_message level) "+91XXXXXXXXXX" w.sms_outcome)
  else
    [Event.stSuccess (normal_message level)]

/-- The whole alerts block (app.py lines 73-93): compute the latest level
of the selected station (an error on an empty station, which nothing
catches), then run the alert branch on it. -/
def alerts_block (df : List Reading) (selected_station : String) (w : World) :
    Except EmptySeriesError (AlertState × List Event) :=
  match latest_level df selected_station with
  | Except.error e => Except.error e
  | Except.ok v => Except.ok (classify v, alert_branch v w)

/-- The notification channels of the dashboard. -/
inductive Channel
  | email
  | sms
deriving DecidableEq, Repr

/-- The channel invocations of an event list, in order, each with the
message it was invoked with. -/
def channel_attempts (events : List Event) : List (Channel × String) :=
  events.filterMap (fun e =>
    match e with
    | Event.emailAttempt m => some (Channel.email, m)
    | Event.smsAttempt m _ => some (Channel.sms, m)
    | _ => none)

/-- A session of repeated evaluations: the classification of each input in
turn. The script recomputes the classification fresh on every render, so a
session is just the image of the input list. -/
def session_states (inputs : List ℚ) : List AlertState :=
  inputs.map classify

end DWLR

namespace DWLR

/-- The all-success world: the SMTP session completes and the POST
returns status 200. -/
def w_ok : World := ⟨Except.ok (), Except.ok 200⟩

/-- The all-failure world: both transports raise. -/
def w_fail : World :=
  ⟨Except.error (DeliveryError.failure "smtp down"),
   Except.error (DeliveryError.failure "gateway down")⟩

/-- The readings of the end-to-end scenario of the spec: station S1 with
level 5.0 at time t1 = 1 and level 1.5 at time t2 = 2. -/
def scenario_df : List Reading :=
  [⟨"S1", 1, 5, 0, 0⟩, ⟨"S1", 2, mkRat 3 2, 0, 0⟩]

/-- A dataset extending the scenario with a reading of another station. -/
def other_station_df : List Reading :=
  scenario_df ++ [⟨"S2", 3, 20, 0, 0⟩]

theorem classify_eq_low_iff (v : ℚ) :
    classify v = AlertState.LOW ↔ v < LOW_THRESHOLD := by
  unfold classify
  split_ifs with h1 h2
  · simp [h1]
  · simp [h1]
  · simp [h1]

theorem classify_eq_high_iff (v : ℚ) :
    classify v = AlertState.HIGH ↔ ¬ v < LOW_THRESHOLD ∧ HIGH_THRESHOLD < v := by
  unfold classify
  split_ifs with h1 h2
  · simp [h1]
  · simp [h1, h2]
  · simp [h1, h2]

theorem classify_eq_normal_iff (v : ℚ) :
    classify v = AlertState.NORMAL ↔ ¬ v < LOW_THRESHOLD ∧ ¬ HIGH_THRESHOLD < v := by
  unfold classify
  split_ifs with h1 h2
  · simp [h1]
  · simp [h1, h2]
  · simp [h1, h2]

theorem sort_values_eq_nil_iff {l : List Reading} :
    sort_values_datetime l = [] ↔ l = [] := by
  constructor
  · intro h
    have hp := List.perm_insertionSort datetime_le l
    rw [sort_values_datetime] at h
    rw [h] at hp
    exact hp.symm.eq_nil
  · intro h
    rw [h]
    rfl

theorem pairwise_rel_getLast {α : Type} {r : α → α → Prop} :
    ∀ {l : List α} {a : α}, List.Pairwise r l → l.getLast? = some a →
      ∀ x ∈ l, x = a ∨ r x a
  | [], _, _, h => by simp at h
  | [b], a, _, h => by
      rw [List.getLast?_singleton] at h
      intro x hx
      rw [List.mem_singleton] at hx
      subst hx
      exact Or.inl (Option.some.inj h)
  | b :: c :: t, a, hp, h => by
      rw [List.getLast?_cons_cons] at h
      rcases List.pairwise_cons.mp hp with ⟨hb, hp'⟩
      intro x hx
      rcases List.mem_cons.mp hx with hxb | hx'
      · subst hxb
        exact Or.inr (hb a (List.mem_of_getLast?_eq_some h))
      · exact pairwise_rel_getLast hp' h x hx'

end DWLR

namespace DWLR

/-- Claim C1: for every water level v, the evaluator classifies v as LOW
when v < 2.0, HIGH when v > 10.0, and NORMAL when 2.0 ≤ v ≤ 10.0; the
boundary values 2.0 and 10.0 classify as NORMAL. -/
theorem threshold_classification (v : ℚ) :
    (v < 2 → classify v = AlertState.LOW) ∧
    (v > 10 → classify v = AlertState.HIGH) ∧
    (2 ≤ v → v ≤ 10 → classify v = AlertState.NORMAL) ∧
    classify 2 = AlertState.NORMAL ∧
    classify 10 = AlertState.NORMAL := by
  refine ⟨fun h => ?_, fun h => ?_, fun h1 h2 => ?_, by decide, by decide⟩ <;>
    (simp only [classify, LOW_THRESHOLD, HIGH_THRESHOLD]
     split_ifs <;> first | rfl | (exfalso; linarith))

/-- Concrete instances of claim C1 at levels 1, 11 and 5. -/
theorem threshold_classification_witness :
    classify 1 = AlertState.LOW ∧
    classify 11 = AlertState.HIGH ∧
    classify 5 = AlertState.NORMAL :=
  ⟨(threshold_classification 1).1 (by decide),
   (threshold_classification 11).2.1 (by decide),
   (threshold_classification 5).2.2.1 (by decide) (by decide)⟩

/-- Claim C2: whenever the latest level classifies as LOW or HIGH, the
email channel and the SMS channel are each invoked exactly once, email
first, with the same alert message, and that message contains the level
formatted to two decimal places. -/
theorem alert_dispatch_on_anomaly (v : ℚ) (w : World)
    (h : classify v = AlertState.LOW ∨ classify v = AlertState.HIGH) :
    ∃ m, channel_attempts (alert_branch v w) =
        [(Channel.email, m), (Channel.sms, m)] ∧
      ∃ p q, m = p ++ format_two_dec v ++ q := by
  rcases h with h | h
  · have hv := (classify_eq_low_iff v).mp h
    refine ⟨low_alert_message v, ?_,
      "⚠️ ALERT: Water level critically LOW (", " m)", rfl⟩
    simp only [alert_branch, if_pos hv]
    rfl
  · have hv := (classify_eq_high_iff v).mp h
    refine ⟨high_alert_message v, ?_,
      "⚠️ ALERT: Water level unusually HIGH (", " m)", rfl⟩
    simp only [alert_branch, if_neg hv.1, if_pos hv.2]
    rfl

/-- Concrete instance of claim C2 at level 1 in the all-failure world. -/
theorem alert_dispatch_on_anomaly_witness :
    ∃ m, channel_attempts (alert_branch 1 w_fail) =
        [(Channel.email, m), (Channel.sms, m)] ∧
      ∃ p q, m = p ++ format_two_dec 1 ++ q :=
  alert_dispatch_on_anomaly 1 w_fail (Or.inl (by decide))

/-- Claim C3: whenever the latest level classifies as NORMAL, neither
notification channel is invoked. -/
theorem no_notification_on_normal (v : ℚ) (w : World)
    (h : classify v = AlertState.NORMAL) :
    channel_attempts (alert_branch v w) = [] := by
  have hv := (classify_eq_normal_iff v).mp h
  simp only [alert_branch, if_neg hv.1, if_neg hv.2]
  rfl

/-- Concrete instance of claim C3 at level 5. -/
theorem no_notification_on_normal_witness :
    channel_attempts (alert_branch 5 w_ok) = [] :=
  no_notification_on_normal 5 w_ok (by decide)

/-- Claim C4: running the alerts block on a station with zero readings
fails with EmptySeriesError; the error reaches the caller and no event
(in particular no channel invocation) is produced. -/
theorem empty_station_error (df : List Reading) (selected_station : String)
    (w : World) (h : filtered_df df selected_station = []) :
    alerts_block df selected_station w =
      Except.error EmptySeriesError.emptySeries := by
  simp [alerts_block, latest_level, h, sort_values_datetime]

/-- Concrete instance of claim C4 on the empty dataset. -/
theorem empty_station_error_witness :
    alerts_block [] "S1" w_ok = Except.error EmptySeriesError.emptySeries :=
  empty_station_error [] "S1" w_ok (by rfl)

/-- Claim C5: delivery failures are contained. Which channels are invoked
and with what message does not depend on the transport outcomes (so a
failure in one channel never prevents the other from being attempted),
and for every world, including all-failure ones, the alerts block on a
nonempty station returns normally - no delivery error reaches the
caller. -/
theorem delivery_failures_contained (v : ℚ) (w : World)
    (df : List Reading) (selected_station : String) :
    (classify v ≠ AlertState.NORMAL →
      channel_attempts (alert_branch v w) =
        channel_attempts (alert_branch v w_ok)) ∧
    (filtered_df df selected_station ≠ [] →
      ∃ result, alerts_block df selected_station w = Except.ok result) := by
  constructor
  · intro _
    unfold alert_branch
    split_ifs <;> rfl
  · intro h
    rcases hx : (sort_values_datetime (filtered_df df selected_station)).getLast?
      with _ | r
    · exact absurd (sort_values_eq_nil_iff.mp (List.getLast?_eq_none_iff.mp hx)) h
    · exact ⟨(classify r.water_level, alert_branch r.water_level w),
        by simp [alerts_block, latest_level, hx]⟩

/-- Concrete instance of claim C5: with both transports failing, the
channel invocations match those of the all-success world, and the block
on the scenario data still returns normally. -/
theorem delivery_failures_contained_witness :
    channel_attempts (alert_branch 1 w_fail) =
      channel_attempts (alert_branch 1 w_ok) ∧
    ∃ result, alerts_block scenario_df "S1" w_fail = Except.ok result :=
  ⟨(delivery_failures_contained 1 w_fail scenario_df "S1").1 (by decide),
   (delivery_failures_contained 1 w_fail scenario_df "S1").2 (by decide)⟩

end DWLR

namespace DWLR

/-- Claim C6: for every station with at least one reading, the level fed
to the threshold evaluator is the water_level of a reading of that
station whose datetime is maximal among the station's readings. -/
theorem latest_reading_selection (df : List Reading) (selected_station : String)
    (h : filtered_df df selected_station ≠ []) :
    ∃ r : Reading, r ∈ filtered_df df selected_station ∧
      latest_level df selected_station = Except.ok r.water_level ∧
      ∀ x ∈ filtered_df df selected_station, x.datetime ≤ r.datetime := by
  rcases hx : (sort_values_datetime (filtered_df df selected_station)).getLast?
    with _ | r
  · exact absurd (sort_values_eq_nil_iff.mp (List.getLast?_eq_none_iff.mp hx)) h
  · refine ⟨r, ?_, ?_, ?_⟩
    · exact (List.mem_insertionSort datetime_le).mp (List.mem_of_getLast?_eq_some hx)
    · simp [latest_level, hx]
    · intro x hxmem
      have hsorted : List.Pairwise datetime_le
          (sort_values_datetime (filtered_df df selected_station)) :=
        List.sorted_insertionSort datetime_le (filtered_df df selected_station)
      have hmem : x ∈ sort_values_datetime (filtered_df df selected_station) :=
        (List.mem_insertionSort datetime_le).mpr hxmem
      rcases pairwise_rel_getLast hsorted hx x hmem with hxa | hle
      · subst hxa
        exact le_refl _
      · exact hle

/-- Concrete instance of claim C6 on the scenario data. -/
theorem latest_reading_selection_witness :
    ∃ r : Reading, r ∈ filtered_df scenario_df "S1" ∧
      latest_level scenario_df "S1" = Except.ok r.water_level ∧
      ∀ x ∈ filtered_df scenario_df "S1", x.datetime ≤ r.datetime :=
  latest_reading_selection scenario_df "S1" (by decide)

/-- Claim C7: the classification is a pure function of the latest level.
In a session of repeated evaluations the outcome of the last evaluation
is classify of its own input, independent of every earlier evaluation:
two sessions with arbitrary different histories but the same current
input end in the same AlertState. -/
theorem classification_pure (prior other : List ℚ) (v : ℚ) :
    (session_states (prior ++ [v])).getLast? = some (classify v) ∧
    (session_states (prior ++ [v])).getLast? =
      (session_states (other ++ [v])).getLast? := by
  have h1 : ∀ l : List ℚ, (session_states (l ++ [v])).getLast? = some (classify v) := by
    intro l
    simp [session_states]
  exact ⟨h1 prior, (h1 prior).trans (h1 other).symm⟩

/-- Claim C8: in the end-to-end scenario with readings (t1, 5.0) and
(t2, 1.5), t2 > t1, the latest level is 1.5, the classification is LOW,
the alert message contains the substring "1.50", and each channel is
invoked exactly once, for every transport outcome. -/
theorem end_to_end_scenario (w : World) :
    latest_level scenario_df "S1" = Except.ok (mkRat 3 2) ∧
    classify (mkRat 3 2) = AlertState.LOW ∧
    (∃ p q, low_alert_message (mkRat 3 2) = p ++ "1.50" ++ q) ∧
    channel_attempts (alert_branch (mkRat 3 2) w) =
      [(Channel.email, low_alert_message (mkRat 3 2)),
       (Channel.sms, low_alert_message (mkRat 3 2))] := by
  refine ⟨by rfl, by decide,
    ⟨"⚠️ ALERT: Water level critically LOW (", " m)", by rfl⟩, ?_⟩
  have hv : (mkRat 3 2 : ℚ) < LOW_THRESHOLD := by decide
  simp only [alert_branch, if_pos hv]
  rfl

/-- Claim C9: the classification outcome and the alert message for the
selected station depend only on that station's readings - two datasets
whose filtered rows for the selected station coincide produce the same
result of the whole alerts block. -/
theorem station_isolation (df1 df2 : List Reading) (selected_station : String)
    (w : World) (h : filtered_df df1 selected_station = filtered_df df2 selected_station) :
    alerts_block df1 selected_station w = alerts_block df2 selected_station w := by
  simp only [alerts_block, latest_level, h]

/-- Concrete instance of claim C9: adding a reading of station S2 does
not change the alerts block of station S1. -/
theorem station_isolation_witness :
    alerts_block scenario_df "S1" w_ok = alerts_block other_station_df "S1" w_ok :=
  station_isolation scenario_df other_station_df "S1" w_ok (by decide)

/-- Claim C10: on every LOW or HIGH classification the email channel is
invoked before the SMS channel. -/
theorem email_before_sms (v : ℚ) (w : World)
    (h : classify v ≠ AlertState.NORMAL) :
    (channel_attempts (alert_branch v w)).map Prod.fst =
      [Channel.email, Channel.sms] := by
  unfold alert_branch
  split_ifs with h1 h2
  · rfl
  · rfl
  · exact absurd ((classify_eq_normal_iff v).mpr ⟨h1, h2⟩) h

/-- Concrete instance of claim C10 at level 11 in the all-failure world. -/
theorem email_before_sms_witness :
    (channel_attempts (alert_branch 11 w_fail)).map Prod.fst =
      [Channel.email, Channel.sms] :=
  email_before_sms 11 w_fail (by decide)

end DWLR
